import Mathlib

/-!
Shallow embedding of the job lifecycle orchestrator in
src/frontend/static/js/app.js: submission handling, the status and log
polling loops, status display updates, results loading and the
rendering helpers that the specification describes.

JavaScript strings are modelled as Lean String, absent or falsy JSON
fields as Option, and each fetch outcome as an explicit input to the
function modelling the callback.  The two repeating timers are modelled
as step functions on an application state; a cleared interval is a
state whose active flag is false, and a tick applied to an inactive
state is the identity (a cleared timer no longer fires).
-/

namespace App

/-- The category a log line is rendered with in displayLogs: the class
name suffix appended to the base class. -/
inductive LogCategory where
  | worker
  | scraper
  | extractor
  | error
  | success
  | plain
deriving DecidableEq, Repr

/-- Endpoints of the HTTP API that the client fetches. -/
inductive Endpoint where
  | analyzeEp
  | statusEp
  | resultsEp
  | logsEp
  | historyEp
deriving DecidableEq, Repr

/-- A decoded status payload: the JSON body of GET /status/{job_id}.
`progress` and `message` are Option/empty-tolerant because the code
reads them with the JavaScript falsy-default idiom. -/
structure StatusMsg where
  status : String
  progress : Option Nat
  message : String
deriving DecidableEq, Repr

/-- The mutable parts of the status display surface written by
updateStatusDisplay: the progress bar width style, the presence of the
loading-animation class, and the two text nodes. -/
structure Display where
  progressWidth : String
  loadingAnim : Bool
  statusMessage : String
  statusDetails : String
deriving DecidableEq, Repr

/-- updateStatusDisplay from app.js: `status.progress || 0` defaults the
progress, widths below 5 switch to the animated full-width bar, the
message falls back to a synthesized status line when falsy, and the
details line shows the percentage only for positive progress. -/
def updateStatusDisplay (d : Display) (s : StatusMsg) : Display :=
  let progress := s.progress.getD 0
  let d1 :=
    if progress < 5 then
      { d with progressWidth := "100%", loadingAnim := true }
    else
      { d with progressWidth := toString progress ++ "%", loadingAnim := false }
  { d1 with
      statusMessage :=
        if s.message = "" then "Status: " ++ s.status else s.message,
      statusDetails :=
        if progress > 0 then "Progress: " ++ toString progress ++ "%"
        else "Processing..." }

/-- The client state: the global polling handles (modelled as active
flags), the section visibility flags, the error surface, the status
display, and bookkeeping for what has been requested or rendered. -/
structure AppState where
  urlField : String
  submitBtnDisabled : Bool
  submitBtnText : String
  currentJobId : Option String
  statusActive : Bool
  logsActive : Bool
  statusVisible : Bool
  resultsVisible : Bool
  errorVisible : Bool
  errorMessage : String
  display : Display
  resultsRequested : Bool
  logsShown : List String
deriving DecidableEq, Repr

/-- showError from app.js. -/
def showError (st : AppState) (msg : String) : AppState :=
  { st with errorVisible := true, errorMessage := msg }

/-- What one tick of the status polling loop observes.  The first three
constructors are the transient failures the catch block absorbs: a
rejected fetch, a non-2xx response, and a response without a JSON
content type.  The fourth is a decoded JSON status payload. -/
inductive TickInput where
  | fetchFailed
  | httpError
  | nonJson
  | payload (s : StatusMsg)
deriving DecidableEq, Repr

/-- Whether a decoded status is terminal in the sense of the code: the
status string equals completed or equals failed. -/
def isTerminal (status : String) : Bool :=
  status = "completed" || status = "failed"

/-- One tick of the status polling loop (the setInterval callback of
startStatusPolling).  A tick on a cleared interval does not fire.  Any
transient failure is caught and changes nothing.  A decoded payload is
applied to the display; a terminal payload clears both intervals and
then either requests the results load (completed) or shows the fixed
failure message (failed). -/
def statusTick (st : AppState) (i : TickInput) : AppState :=
  if st.statusActive then
    match i with
    | .fetchFailed => st
    | .httpError => st
    | .nonJson => st
    | .payload s =>
      let st1 := { st with display := updateStatusDisplay st.display s }
      if isTerminal s.status then
        let st2 := { st1 with statusActive := false, logsActive := false }
        if s.status = "completed" then
          { st2 with resultsRequested := true }
        else
          showError st2 "Analysis failed. Please try again."
      else st1
  else st

/-- An event affecting the status polling loop: either its interval
callback fires with some tick input, or the interval is cleared from
outside (clearInterval on the shared handle, as startStatusPolling does
when superseding it). -/
inductive Event where
  | tick (i : TickInput)
  | cancel
deriving DecidableEq, Repr

/-- One event step of the status polling loop. -/
def stepStatus (st : AppState) (e : Event) : AppState :=
  match e with
  | .tick i => statusTick st i
  | .cancel => { st with statusActive := false }

/-- The status polling loop run over a sequence of events. -/
def runStatus (st : AppState) (events : List Event) : AppState :=
  events.foldl stepStatus st

/-- Whether an event stops the status polling loop: an external
cancellation or a tick that observes a terminal status. -/
def isStopEvent (e : Event) : Bool :=
  match e with
  | .cancel => true
  | .tick (.payload s) => isTerminal s.status
  | .tick _ => false

/-- Whether a tick input is one of the transient failures. -/
def isTransient (i : TickInput) : Bool :=
  match i with
  | .fetchFailed => true
  | .httpError => true
  | .nonJson => true
  | .payload _ => false

/-- The JSON body of GET /logs/{job_id}: the `logs` field may be
absent, in which case displayLogs receives `data.logs || []`. -/
structure LogsMsg where
  logs : Option (List String)
deriving DecidableEq, Repr

/-- The outcome of one fetch as the logs loop sees it: a rejected
promise, a non-2xx response, a response without a JSON content type, or
a decoded body. -/
inductive FetchOutcome (α : Type) where
  | fetchFailed
  | httpError
  | nonJson
  | ok (body : α)
deriving DecidableEq, Repr

/-- One tick of the logs polling loop (the setInterval callback of
startLogsPolling), returning the new state together with the list of
endpoints the tick fetched, in order.  The tick always fetches the logs
endpoint first; a failed, non-2xx or non-JSON logs response returns
early.  After rendering the logs it fetches the status endpoint and, on
a decoded terminal status, clears its own interval.  A non-2xx status
response is skipped; a non-JSON one makes response.json() throw into
the silent catch.  Either way the tick ends without stopping. -/
def logsTick (st : AppState) (logsResp : FetchOutcome LogsMsg)
    (statusResp : FetchOutcome StatusMsg) : AppState × List Endpoint :=
  if st.logsActive then
    match logsResp with
    | .fetchFailed => (st, [Endpoint.logsEp])
    | .httpError => (st, [Endpoint.logsEp])
    | .nonJson => (st, [Endpoint.logsEp])
    | .ok body =>
      let st1 := { st with logsShown := body.logs.getD [] }
      match statusResp with
      | .fetchFailed => (st1, [Endpoint.logsEp, Endpoint.statusEp])
      | .httpError => (st1, [Endpoint.logsEp, Endpoint.statusEp])
      | .nonJson => (st1, [Endpoint.logsEp, Endpoint.statusEp])
      | .ok s =>
        if isTerminal s.status then
          ({ st1 with logsActive := false },
           [Endpoint.logsEp, Endpoint.statusEp])
        else (st1, [Endpoint.logsEp, Endpoint.statusEp])
  else (st, [])

/-- The outcome of the submission POST in handleFormSubmit: a rejected
fetch carrying the message of the thrown error, a non-2xx response
(which makes the handler throw a fixed message), or a decoded body
carrying the job identifier. -/
inductive SubmitOutcome where
  | netError (msg : String)
  | httpError
  | ok (jobId : String)
deriving DecidableEq, Repr

/-- Whether the submission outcome is a failure. -/
def submitFailed (r : SubmitOutcome) : Bool :=
  match r with
  | .netError _ => true
  | .httpError => true
  | .ok _ => false

/-- The message of the error thrown on a failed submission: the fixed
text for a non-2xx response, the fetch rejection message otherwise. -/
def submitFailureMsg (r : SubmitOutcome) : String :=
  match r with
  | .netError msg => msg
  | .httpError => "Failed to submit analysis"
  | .ok _ => ""

/-- The whitespace trimming of JavaScript String.prototype.trim,
written structurally over the character list: drop leading whitespace,
then drop trailing whitespace. -/
def jsTrim (s : String) : String :=
  String.mk
    (((s.data.dropWhile Char.isWhitespace).reverse.dropWhile
        Char.isWhitespace).reverse)

/-- handleFormSubmit from app.js.  The trimmed input is validated
first: an empty trimmed value shows an error and returns before any
fetch.  Otherwise the handler disables the button, hides the error and
results sections, shows the status section with a synthetic submitting
update, and issues the POST.  On success it stores the job id, starts
both polling loops, resets the form and triggers a history refresh; on
failure the catch hides the status section, shows the error message and
re-enables the button.  The returned list records the endpoints
fetched, in order. -/
def handleFormSubmit (st : AppState) (resp : SubmitOutcome) :
    AppState × List Endpoint :=
  let url := jsTrim st.urlField
  if url = "" then
    (showError st "Please enter a valid URL", [])
  else
    let st1 :=
      { st with
          submitBtnDisabled := true, submitBtnText := "Submitting...",
          errorVisible := false, resultsVisible := false,
          statusVisible := true,
          display := updateStatusDisplay st.display
            { status := "processing", progress := some 0,
              message := "Submitting analysis request..." } }
    match resp with
    | .ok jobId =>
      ({ st1 with
           currentJobId := some jobId,
           statusActive := true, logsActive := true,
           urlField := "",
           submitBtnDisabled := false, submitBtnText := "Analyze Website" },
       [Endpoint.analyzeEp, Endpoint.historyEp])
    | .httpError =>
      ({ showError { st1 with statusVisible := false }
           ("Error: " ++ submitFailureMsg resp) with
           submitBtnDisabled := false, submitBtnText := "Analyze Website" },
       [Endpoint.analyzeEp])
    | .netError msg =>
      ({ showError { st1 with statusVisible := false } ("Error: " ++ msg) with
           submitBtnDisabled := false, submitBtnText := "Analyze Website" },
       [Endpoint.analyzeEp])

/-- The summary part of a Result payload, the fields displayResults
reads for the business summary block. -/
structure Summary where
  nature : String
  products_services : String
  countries_operating : List String
  countries_dealing_with : List String
deriving DecidableEq, Repr

/-- The result payload handed to displayResults.  Only the summary
block carries the behaviour the specification states properties about;
the remaining blocks are rendered from sibling fields of the payload by
the same straight-line interpolation. -/
structure ResultData where
  summary : Summary
deriving DecidableEq, Repr

/-- The country-list interpolation of the business summary block: the
join with the comma separator, with the fallback marker substituted
when the joined value is falsy.  The fallback therefore triggers
exactly when the joined string is empty. -/
def renderCountries (l : List String) : String :=
  let joined := String.intercalate ", " l
  if joined = "" then "N/A" else joined

/-- The text lines of the business summary block written by
displayResults. -/
def summaryLines (s : Summary) : List String :=
  ["Nature: " ++ s.nature,
   "Products/Services: " ++ s.products_services,
   "Countries Operating: " ++ renderCountries s.countries_operating,
   "Countries Dealing With: " ++ renderCountries s.countries_dealing_with]

/-- The JSON body of GET /results/{job_id}: optional `error` and
`result` fields.  An absent field is none. -/
structure ResultsMsg where
  errorField : Option String
  result : Option ResultData
deriving DecidableEq, Repr

/-- loadResults from app.js.  A rejected fetch, a non-2xx response
(which throws) or a JSON decode failure lands in the catch, which shows
a load error built from the thrown message.  Otherwise a truthy `error`
field is shown verbatim and the function returns; a present `result`
field is rendered, the status section hidden and the results section
shown; with neither, the function falls through and does nothing. -/
def loadResults (st : AppState) (resp : FetchOutcome ResultsMsg) : AppState :=
  match resp with
  | .fetchFailed => showError st "Error loading results: fetch failed"
  | .httpError => showError st "Error loading results: Failed to get results"
  | .nonJson => showError st "Error loading results: JSON decode failed"
  | .ok data =>
    if data.errorField.getD "" ≠ "" then
      showError st (data.errorField.getD "")
    else
      match data.result with
      | some _ =>
        { st with statusVisible := false, resultsVisible := true }
      | none => st

/-- Substring containment on character lists, the semantics of the
JavaScript String.prototype.includes used by displayLogs. -/
def containsSub : List Char → List Char → Bool
  | [], sub => sub.isEmpty
  | c :: rest, sub => sub.isPrefixOf (c :: rest) || containsSub rest sub

/-- Substring containment on strings. -/
def strContains (s sub : String) : Bool :=
  containsSub s.data sub.data

/-- The error marker literal of displayLogs, the three-character
sequence U+201A U+00FA U+00F3 that appears in the source. -/
def errGlyph : String :=
  String.mk [Char.ofNat 0x201A, Char.ofNat 0xFA, Char.ofNat 0xF3]

/-- The success marker literal of displayLogs, the three-character
sequence U+201A U+00FA U+00EC that appears in the source. -/
def okGlyph : String :=
  String.mk [Char.ofNat 0x201A, Char.ofNat 0xFA, Char.ofNat 0xEC]

/-- The if/else chain of displayLogs that picks the class name suffix
for one log line, transcribed in source order. -/
def classify (log : String) : LogCategory :=
  if strContains log "[WORKER]" then .worker
  else if strContains log "[SCRAPER]" then .scraper
  else if strContains log "[EXTRACTOR]" then .extractor
  else if strContains log errGlyph || strContains log "ERROR"
       || strContains log "Error" then .error
  else if strContains log okGlyph || strContains log "completed" then .success
  else .plain

/-- Whether a line carries one of the three component tags. -/
def hasComponentTag (log : String) : Bool :=
  strContains log "[WORKER]" || strContains log "[SCRAPER]"
    || strContains log "[EXTRACTOR]"

/-- Whether a line carries one of the error markers of displayLogs. -/
def hasErrorMarker (log : String) : Bool :=
  strContains log errGlyph || strContains log "ERROR"
    || strContains log "Error"

/-- Whether a line carries one of the success markers of displayLogs. -/
def hasSuccessMarker (log : String) : Bool :=
  strContains log okGlyph || strContains log "completed"

/-- The page state after load: no job, no polling, all dynamic sections
hidden. -/
def initState : AppState :=
  { urlField := ""
    submitBtnDisabled := false
    submitBtnText := "Analyze Website"
    currentJobId := none
    statusActive := false
    logsActive := false
    statusVisible := false
    resultsVisible := false
    errorVisible := false
    errorMessage := ""
    display :=
      { progressWidth := "0%", loadingAnim := false,
        statusMessage := "", statusDetails := "" }
    resultsRequested := false
    logsShown := [] }

/-- A state in which both polling loops are running for job abc123. -/
def pollingState : AppState :=
  { initState with
      currentJobId := some "abc123"
      statusActive := true
      logsActive := true
      statusVisible := true }

/-- An idle state whose input field holds only whitespace. -/
def wsState : AppState :=
  { initState with urlField := "   " }

/-- An idle state whose input field holds a URL. -/
def urlState : AppState :=
  { initState with urlField := "https://example.com" }

/-- A transient tick input leaves the whole state unchanged: the catch
block of the status loop only logs. -/
theorem statusTick_transient_eq (st : AppState) (i : TickInput)
    (h : isTransient i = true) : statusTick st i = st := by
  cases i with
  | fetchFailed => simp [statusTick]
  | httpError => simp [statusTick]
  | nonJson => simp [statusTick]
  | payload s => simp [isTransient] at h

/-- A step on an inactive status loop keeps it inactive. -/
theorem stepStatus_inactive (st : AppState) (e : Event)
    (h : st.statusActive = false) : (stepStatus st e).statusActive = false := by
  cases e with
  | cancel => rfl
  | tick i => simp [stepStatus, statusTick, h]

/-- A run starting from an inactive status loop stays inactive. -/
theorem runStatus_inactive (st : AppState) (events : List Event)
    (h : st.statusActive = false) :
    (runStatus st events).statusActive = false := by
  induction events generalizing st with
  | nil => exact h
  | cons e rest ih =>
    exact ih (stepStatus st e) (stepStatus_inactive st e h)

/-- After a stopping event the status loop is inactive, whatever the
state before it was. -/
theorem stepStatus_stop (st : AppState) (e : Event)
    (h : isStopEvent e = true) : (stepStatus st e).statusActive = false := by
  cases e with
  | cancel => rfl
  | tick i =>
    cases i with
    | fetchFailed => simp [isStopEvent] at h
    | httpError => simp [isStopEvent] at h
    | nonJson => simp [isStopEvent] at h
    | payload s =>
      have hterm : isTerminal s.status = true := by
        simpa [isStopEvent] using h
      by_cases hact : st.statusActive
      · simp only [stepStatus, statusTick, hact, if_true, hterm, showError]
        split <;> rfl
      · simp only [stepStatus, statusTick, hact, if_false]
        exact Bool.eq_false_iff.mpr hact

/-- A non-stopping event does not change whether the status loop is
active. -/
theorem stepStatus_nonstop (st : AppState) (e : Event)
    (h : isStopEvent e = false) :
    (stepStatus st e).statusActive = st.statusActive := by
  cases e with
  | cancel => simp [isStopEvent] at h
  | tick i =>
    cases i with
    | fetchFailed => simp [stepStatus, statusTick]
    | httpError => simp [stepStatus, statusTick]
    | nonJson => simp [stepStatus, statusTick]
    | payload s =>
      have hterm : isTerminal s.status = false := by
        simpa [isStopEvent] using h
      simp only [stepStatus, statusTick, hterm, Bool.false_eq_true, if_false]
      split <;> rfl

/-- Without a stopping event the activity flag of the status loop is
preserved across a run. -/
theorem runStatus_no_stop (st : AppState) (events : List Event)
    (h : ∀ e ∈ events, isStopEvent e = false) :
    (runStatus st events).statusActive = st.statusActive := by
  induction events generalizing st with
  | nil => rfl
  | cons e rest ih =>
    have he : isStopEvent e = false := h e (List.mem_cons_self e rest)
    have hrest : ∀ x ∈ rest, isStopEvent x = false :=
      fun x hx => h x (List.mem_cons_of_mem e hx)
    calc (runStatus (stepStatus st e) rest).statusActive
        = (stepStatus st e).statusActive := ih (stepStatus st e) hrest
      _ = st.statusActive := stepStatus_nonstop st e he

/-- A run containing a stopping event ends inactive, whatever the state
before it was. -/
theorem runStatus_with_stop (st : AppState) (events : List Event)
    (h : ∃ e ∈ events, isStopEvent e = true) :
    (runStatus st events).statusActive = false := by
  induction events generalizing st with
  | nil => simp at h
  | cons e rest ih =>
    by_cases he : isStopEvent e = true
    · exact runStatus_inactive (stepStatus st e) rest (stepStatus_stop st e he)
    · obtain ⟨x, hx, hstop⟩ := h
      rcases List.mem_cons.mp hx with hhead | htail
      · subst hhead; exact absurd hstop he
      · exact ih (stepStatus st e) ⟨x, htail, hstop⟩

/-- A run consisting only of transient error ticks is the identity on
the whole state. -/
theorem runStatus_transient (st : AppState) (errs : List TickInput)
    (h : ∀ i ∈ errs, isTransient i = true) :
    runStatus st (errs.map Event.tick) = st := by
  induction errs with
  | nil => rfl
  | cons i rest ih =>
    have hi : isTransient i = true := h i (List.mem_cons_self i rest)
    have hrest : ∀ x ∈ rest, isTransient x = true :=
      fun x hx => h x (List.mem_cons_of_mem i hx)
    show runStatus (stepStatus st (Event.tick i)) (rest.map Event.tick) = st
    have hstep : stepStatus st (Event.tick i) = st :=
      statusTick_transient_eq st i hi
    rw [hstep]
    exact ih hrest

/-- Claim C1: the status polling loop, started active, ends inactive
over a run of events exactly when some event in the run is an observed
terminal status or an external cancellation; and a run made only of
transient tick errors (fetch failure, non-2xx, non-JSON) of any length
leaves the entire state unchanged. -/
theorem statusPoller_stops_iff (st : AppState) (events : List Event)
    (hact : st.statusActive = true) :
    ((runStatus st events).statusActive = false ↔
      ∃ e ∈ events, isStopEvent e = true) ∧
    ∀ errs : List TickInput, (∀ i ∈ errs, isTransient i = true) →
      runStatus st (errs.map Event.tick) = st := by
  refine ⟨⟨?_, runStatus_with_stop st events⟩, runStatus_transient st⟩
  intro hstop
  by_contra hno
  push_neg at hno
  have hpres : (runStatus st events).statusActive = st.statusActive :=
    runStatus_no_stop st events
      (fun e he => Bool.eq_false_iff.mpr (hno e he))
  rw [hstop, hact] at hpres
  exact Bool.false_ne_true hpres

/-- Witness for C1 at a concrete state: a cancellation event stops the
loop, and a one-error run leaves the polling state unchanged. -/
theorem statusPoller_stops_iff_witness :
    (runStatus pollingState [Event.cancel]).statusActive = false ∧
    runStatus pollingState ([TickInput.fetchFailed].map Event.tick)
      = pollingState :=
  ⟨(statusPoller_stops_iff pollingState [Event.cancel] rfl).1.mpr
      ⟨Event.cancel, by simp, rfl⟩,
   (statusPoller_stops_iff pollingState [Event.cancel] rfl).2
      [TickInput.fetchFailed] (by decide)⟩

/-- Claim C2: a status tick that observes a terminal status clears the
status interval and the logs interval in that same tick, so the log
stream loop is stopped within one tick of the terminal observation. -/
theorem statusTick_terminal_cancels_both (st : AppState) (s : StatusMsg)
    (hact : st.statusActive = true) (hterm : isTerminal s.status = true) :
    (statusTick st (.payload s)).statusActive = false ∧
    (statusTick st (.payload s)).logsActive = false := by
  simp only [statusTick, hact, if_true, hterm, showError]
  split <;> exact ⟨rfl, rfl⟩

/-- Witness for C2 at a concrete state and a completed status. -/
theorem statusTick_terminal_cancels_both_witness :
    (statusTick pollingState
        (.payload { status := "completed", progress := some 100,
                    message := "done" })).statusActive = false ∧
    (statusTick pollingState
        (.payload { status := "completed", progress := some 100,
                    message := "done" })).logsActive = false :=
  statusTick_terminal_cancels_both pollingState
    { status := "completed", progress := some 100, message := "done" }
    rfl (by decide)

/-- Claim C7: a status tick requests the results load exactly when the
observed status is completed; on status failed it shows the fixed
generic failure message and requests no results load. -/
theorem statusTick_results_dispatch (st : AppState) (s : StatusMsg)
    (hact : st.statusActive = true) (hres : st.resultsRequested = false) :
    ((statusTick st (.payload s)).resultsRequested = true ↔
      s.status = "completed") ∧
    (s.status = "failed" →
      (statusTick st (.payload s)).errorVisible = true ∧
      (statusTick st (.payload s)).errorMessage
        = "Analysis failed. Please try again." ∧
      (statusTick st (.payload s)).resultsRequested = false) := by
  by_cases hc : s.status = "completed"
  · constructor
    · simp [statusTick, hact, isTerminal, hc]
    · intro hf
      rw [hc] at hf
      simp at hf
  · by_cases hf : s.status = "failed"
    · have hterm : isTerminal s.status = true := by simp [isTerminal, hf]
      constructor
      · simp [statusTick, hact, hterm, hc, showError, hres]
      · intro _
        simp [statusTick, hact, hterm, hc, showError, hres]
    · have hterm : isTerminal s.status = false := by
        simp [isTerminal, hc, hf]
      constructor
      · simp [statusTick, hact, hterm, hc, hres]
      · intro hf2
        exact absurd hf2 hf

/-- Witness for C7 at a concrete state and a failed status. -/
theorem statusTick_results_dispatch_witness :
    (statusTick pollingState
        (.payload { status := "failed", progress := some 100,
                    message := "scrape error" })).errorMessage
      = "Analysis failed. Please try again." ∧
    (statusTick pollingState
        (.payload { status := "failed", progress := some 100,
                    message := "scrape error" })).resultsRequested = false :=
  ⟨((statusTick_results_dispatch pollingState
      { status := "failed", progress := some 100, message := "scrape error" }
      rfl rfl).2 rfl).2.1,
   ((statusTick_results_dispatch pollingState
      { status := "failed", progress := some 100, message := "scrape error" }
      rfl rfl).2 rfl).2.2⟩

/-- Claim C5: an input that trims to the empty string causes no fetch
and shows the validation message; for any other input the submission
POST is among the issued fetches. -/
theorem handleFormSubmit_validation (st : AppState) (resp : SubmitOutcome) :
    (jsTrim st.urlField = "" →
      (handleFormSubmit st resp).2 = [] ∧
      (handleFormSubmit st resp).1.errorVisible = true ∧
      (handleFormSubmit st resp).1.errorMessage = "Please enter a valid URL") ∧
    (jsTrim st.urlField ≠ "" →
      Endpoint.analyzeEp ∈ (handleFormSubmit st resp).2) := by
  constructor
  · intro h
    simp [handleFormSubmit, h, showError]
  · intro h
    cases resp <;> simp [handleFormSubmit, h]

/-- Witness for C5: a whitespace-only field issues no fetch, a URL
field issues the submission POST. -/
theorem handleFormSubmit_validation_witness :
    (handleFormSubmit wsState SubmitOutcome.httpError).2 = [] ∧
    Endpoint.analyzeEp ∈
      (handleFormSubmit urlState (SubmitOutcome.ok "abc123")).2 :=
  ⟨((handleFormSubmit_validation wsState SubmitOutcome.httpError).1
      (by decide)).1,
   (handleFormSubmit_validation urlState (SubmitOutcome.ok "abc123")).2
      (by decide)⟩

/-- Claim C6: when the submission fetch fails or returns non-2xx, the
status section is hidden again, the error surface shows the thrown
message, and neither polling loop is started. -/
theorem handleFormSubmit_failure_reverts (st : AppState)
    (resp : SubmitOutcome) (hurl : jsTrim st.urlField ≠ "")
    (hfail : submitFailed resp = true) :
    (handleFormSubmit st resp).1.statusVisible = false ∧
    (handleFormSubmit st resp).1.errorVisible = true ∧
    (handleFormSubmit st resp).1.errorMessage
      = "Error: " ++ submitFailureMsg resp ∧
    (handleFormSubmit st resp).1.statusActive = st.statusActive ∧
    (handleFormSubmit st resp).1.logsActive = st.logsActive := by
  cases resp with
  | ok jobId => simp [submitFailed] at hfail
  | httpError => simp [handleFormSubmit, hurl, showError, submitFailureMsg]
  | netError msg => simp [handleFormSubmit, hurl, showError, submitFailureMsg]

/-- Witness for C6 at a concrete idle state and a non-2xx response. -/
theorem handleFormSubmit_failure_reverts_witness :
    (handleFormSubmit urlState SubmitOutcome.httpError).1.statusVisible
      = false ∧
    (handleFormSubmit urlState SubmitOutcome.httpError).1.errorVisible
      = true ∧
    (handleFormSubmit urlState SubmitOutcome.httpError).1.errorMessage
      = "Error: " ++ submitFailureMsg SubmitOutcome.httpError ∧
    (handleFormSubmit urlState SubmitOutcome.httpError).1.statusActive
      = urlState.statusActive ∧
    (handleFormSubmit urlState SubmitOutcome.httpError).1.logsActive
      = urlState.logsActive :=
  handleFormSubmit_failure_reverts urlState SubmitOutcome.httpError
    (by decide) rfl

/-- Claim C10: a decoded results payload with neither an error field
nor a result field leaves the state exactly as it was. -/
theorem loadResults_frame (st : AppState) :
    loadResults st (FetchOutcome.ok { errorField := none, result := none })
      = st := by
  simp [loadResults]

/-- Claim C3, failing input: a logs tick whose logs fetch succeeds also
fetches the status endpoint, and on observing a completed status it
clears its own interval, contradicting the single-authority design. -/
theorem logsTick_self_stop :
    logsTick pollingState
        (FetchOutcome.ok { logs := some ["[WORKER] starting"] })
        (FetchOutcome.ok
          { status := "completed", progress := some 100, message := "done" })
      = ({ pollingState with
             logsShown := ["[WORKER] starting"], logsActive := false },
         [Endpoint.logsEp, Endpoint.statusEp]) := by
  decide

/-- Claim C4, failing input: the display unconditionally applies every
decoded status, so after a progress-60 update a late progress-10
response overwrites the bar with the older, smaller value. -/
theorem updateStatusDisplay_stale_overwrite :
    (updateStatusDisplay initState.display
        { status := "processing", progress := some 60,
          message := "m1" }).progressWidth = "60%" ∧
    (updateStatusDisplay
        (updateStatusDisplay initState.display
          { status := "processing", progress := some 60, message := "m1" })
        { status := "processing", progress := some 10,
          message := "m0" }).progressWidth = "10%" :=
  ⟨rfl, rfl⟩

/-- Claim C8: the class of a log line follows first-match priority in
the order worker, scraper, extractor, error, success, plain; in
particular a line carrying both a component tag and an error marker is
classified by its component tag. -/
theorem displayLogs_classification (log : String) :
    (strContains log "[WORKER]" = true → classify log = .worker) ∧
    (strContains log "[WORKER]" = false →
      strContains log "[SCRAPER]" = true → classify log = .scraper) ∧
    (strContains log "[WORKER]" = false →
      strContains log "[SCRAPER]" = false →
      strContains log "[EXTRACTOR]" = true → classify log = .extractor) ∧
    (hasComponentTag log = false → hasErrorMarker log = true →
      classify log = .error) ∧
    (hasComponentTag log = false → hasErrorMarker log = false →
      hasSuccessMarker log = true → classify log = .success) ∧
    (hasComponentTag log = false → hasErrorMarker log = false →
      hasSuccessMarker log = false → classify log = .plain) ∧
    (hasComponentTag log = true → hasErrorMarker log = true →
      (classify log = .worker ∨ classify log = .scraper ∨
        classify log = .extractor)) := by
  refine ⟨?_, ?_, ?_, ?_, ?_, ?_, ?_⟩
  · intro h
    simp [classify, h]
  · intro h1 h2
    simp [classify, h1, h2]
  · intro h1 h2 h3
    simp [classify, h1, h2, h3]
  · intro hc he
    simp only [hasComponentTag, Bool.or_eq_false_iff] at hc
    obtain ⟨⟨h1, h2⟩, h3⟩ := hc
    simp only [hasErrorMarker, Bool.or_eq_true] at he
    rcases he with (h | h) | h <;> simp [classify, h1, h2, h3, h]
  · intro hc he hs
    simp only [hasComponentTag, Bool.or_eq_false_iff] at hc
    obtain ⟨⟨h1, h2⟩, h3⟩ := hc
    simp only [hasErrorMarker, Bool.or_eq_false_iff] at he
    obtain ⟨⟨e1, e2⟩, e3⟩ := he
    simp only [hasSuccessMarker, Bool.or_eq_true] at hs
    rcases hs with h | h <;> simp [classify, h1, h2, h3, e1, e2, e3, h]
  · intro hc he hs
    simp only [hasComponentTag, Bool.or_eq_false_iff] at hc
    obtain ⟨⟨h1, h2⟩, h3⟩ := hc
    simp only [hasErrorMarker, Bool.or_eq_false_iff] at he
    obtain ⟨⟨e1, e2⟩, e3⟩ := he
    simp only [hasSuccessMarker, Bool.or_eq_false_iff] at hs
    obtain ⟨s1, s2⟩ := hs
    simp [classify, h1, h2, h3, e1, e2, e3, s1, s2]
  · intro hc _
    simp only [hasComponentTag, Bool.or_eq_true] at hc
    rcases hc with (h | h) | h
    · exact Or.inl (by simp [classify, h])
    · by_cases hw : strContains log "[WORKER]" = true
      · exact Or.inl (by simp [classify, hw])
      · have hw2 : strContains log "[WORKER]" = false :=
          Bool.eq_false_iff.mpr hw
        exact Or.inr (Or.inl (by simp [classify, hw2, h]))
    · by_cases hw : strContains log "[WORKER]" = true
      · exact Or.inl (by simp [classify, hw])
      · have hw2 : strContains log "[WORKER]" = false :=
          Bool.eq_false_iff.mpr hw
        by_cases hs : strContains log "[SCRAPER]" = true
        · exact Or.inr (Or.inl (by simp [classify, hw2, hs]))
        · have hs2 : strContains log "[SCRAPER]" = false :=
            Bool.eq_false_iff.mpr hs
          exact Or.inr (Or.inr (by simp [classify, hw2, hs2, h]))

/-- Witness for C8: a line carrying both the worker tag and an error
marker is classified as worker. -/
theorem displayLogs_classification_witness :
    classify "[WORKER] Error: scrape failed" = LogCategory.worker :=
  (displayLogs_classification "[WORKER] Error: scrape failed").1 (by decide)

/-- Counterexample for C9: the singleton country list holding the
empty string is a non-empty list, yet the block renders the fallback
marker instead of its separator-join (the empty string), because the
fallback triggers on any falsy joined string, not only on empty
lists. -/
theorem renderCountries_counterexample :
    ([""] : List String) ≠ [] ∧
    String.intercalate ", " [""] = "" ∧
    renderCountries [""] = "N/A" ∧
    renderCountries [""] ≠ String.intercalate ", " [""] := by
  refine ⟨by simp, rfl, rfl, by decide⟩

/-- Claim C9 as amended: a country list whose separator-join is
non-empty renders as the join; a list whose join is empty renders as
the fallback marker, and in particular the empty list renders as the
fallback marker. -/
theorem renderCountries_amended (l : List String) :
    (String.intercalate ", " l ≠ "" →
      renderCountries l = String.intercalate ", " l) ∧
    (String.intercalate ", " l = "" → renderCountries l = "N/A") ∧
    (l = [] → renderCountries l = "N/A") := by
  refine ⟨?_, ?_, ?_⟩
  · intro h
    simp [renderCountries, h]
  · intro h
    simp [renderCountries, h]
  · intro h
    subst h
    rfl

/-- Witness for C9: the two-country list joins with the separator and
the empty list renders the fallback marker. -/
theorem renderCountries_amended_witness :
    renderCountries ["GB", "FR"] = "GB, FR" ∧
    renderCountries [] = "N/A" :=
  ⟨(renderCountries_amended ["GB", "FR"]).1 (by decide),
   (renderCountries_amended []).2.2 rfl⟩

end App
